import Mathlib

/-!
Shallow embedding of the `JobDetail` view controller from
`src/js/components/jobs/detail.js` (MetaDeploy).

The component receives nullable props from the store, decides on mount and
update whether to dispatch fetch effects, mediates a cancel request, and
renders one of three mutually exclusive results: the placeholder returned by
the `getLoadingOrNotFound` collaborator, a not-found view, or the full loaded
layout.  Side effects are modelled as explicit effect lists; the asynchronous
cancel request is modelled as a dispatched effect together with a continuation
from the completion signal to the next local state.
-/

namespace MetaDeploy

/-- Job status enumeration.  Modelled from the spec: the status constants
(`CONSTANTS.STATUS` from `plans/reducer`) are not among the provided sources;
the spec lists the enumerated values STARTED, COMPLETE, FAILED, CANCELED. -/
inductive JobStatus where
  | STARTED
  | COMPLETE
  | FAILED
  | CANCELED
  deriving DecidableEq

/-- A Flow maybe-type `?T`: the value may be `undefined`, `null`, or present.
The job prop uses all three states: `undef` is the "not yet requested"
sentinel tested by `job === undefined`, `null` is "requested but not found". -/
inductive Maybe (α : Type) where
  | undef : Maybe α
  | null : Maybe α
  | val : α → Maybe α
  deriving DecidableEq

/-- Job record: the fields of `JobType` read by this component. -/
structure Job where
  id : String
  status : JobStatus
  user_can_edit : Bool
  deriving DecidableEq

/-- A plan step; only its identity matters to this component. -/
structure Step where
  id : String
  deriving DecidableEq

/-- Plan record: the fields of `PlanType` read by this component.  The render
guard `plan.steps && plan.steps.length` treats `steps` as nullable. -/
structure Plan where
  id : String
  title : String
  slug : String
  steps : Option (List Step)
  deriving DecidableEq

/-- Product record: the fields of `ProductType` read by this component. -/
structure Product where
  id : String
  slug : String
  title : String
  deriving DecidableEq

/-- Version record: the fields of `VersionType` read by this component. -/
structure Version where
  id : String
  label : String
  deriving DecidableEq

/-- User record.  Modelled from the spec: `user/reducer` is not among the
provided sources; only nullability (`user !== null`) is observed here. -/
structure User where
  username : String
  deriving DecidableEq

/-- The props selected for the component by `select`. -/
structure Props where
  user : Option User
  product : Option Product
  version : Option Version
  versionLabel : Option String
  plan : Option Plan
  job : Maybe Job
  jobId : Option String
  deriving DecidableEq

/-- The local component state, owned by the view. -/
structure State where
  modalOpen : Bool
  canceling : Bool
  deriving DecidableEq

/-- Argument record of the `shouldFetchVersion` collaborator. -/
structure SFVArgs where
  product : Product
  version : Option Version
  versionLabel : String

/-- Argument record of the `getLoadingOrNotFound` collaborator. -/
structure GLNFArgs where
  product : Option Product
  version : Option Version
  versionLabel : Option String
  plan : Option Plan
  job : Maybe Job
  jobId : Option String
  isLoggedIn : Bool

/-- The component collaborators that live outside this file
(`shouldFetchVersion` and `getLoadingOrNotFound` from `products/utils`,
`routes.plan_detail` from `utils/routes`).  They are opaque to the component,
so the embedding quantifies over them.  `getLoadingOrNotFound` returning
`none` models the sentinel `false` ("all data ready"); `some node` models a
renderable placeholder returned verbatim. -/
structure Deps where
  shouldFetchVersion : SFVArgs → Bool
  getLoadingOrNotFound : GLNFArgs → Option String
  plan_detail : String → String → String → String

/-- The effect dispatches the component can issue. -/
inductive Effect where
  | fetchVersion (productId : String) (label : String)
  | fetchJob (jobId : String)
  | requestCancelJob (jobId : String)
  deriving DecidableEq

/-- Effects dispatched by `fetchVersionIfMissing`: fetch when product and
versionLabel are truthy and `shouldFetchVersion` holds.  JS truthiness makes
the empty string falsy, hence the `label ≠ ""` guard. -/
def fetchVersionIfMissing (ext : Deps) (p : Props) : List Effect :=
  match p.product, p.versionLabel with
  | some product, some label =>
    if label ≠ "" ∧ ext.shouldFetchVersion ⟨product, p.version, label⟩ = true then
      [Effect.fetchVersion product.id label]
    else []
  | _, _ => []

/-- Effects dispatched by `fetchJobIfMissing`: fetch when `job === undefined`
and `jobId` is truthy. -/
def fetchJobIfMissing (p : Props) : List Effect :=
  match p.job, p.jobId with
  | Maybe.undef, some jid => if jid ≠ "" then [Effect.fetchJob jid] else []
  | _, _ => []

/-- Trace of one lifecycle hook: which ensure-operations were invoked, and the
effects they dispatched. -/
structure LifecycleTrace where
  ranFetchVersionIfMissing : Bool
  ranFetchJobIfMissing : Bool
  effects : List Effect
  deriving DecidableEq

/-- The mount hook invokes both ensure-operations. -/
def componentDidMount (ext : Deps) (p : Props) : LifecycleTrace :=
  { ranFetchVersionIfMissing := true
    ranFetchJobIfMissing := true
    effects := fetchVersionIfMissing ext p ++ fetchJobIfMissing p }

/-- The update hook compares previous and current props (the JS `!==`
comparisons, rendered as structural disequality in the embedding) and re-runs
only the ensure-operation whose prop group changed. -/
def componentDidUpdate (ext : Deps) (prevProps p : Props) : LifecycleTrace :=
  let versionChanged : Bool :=
    decide (p.product ≠ prevProps.product) || decide (p.version ≠ prevProps.version) ||
      decide (p.versionLabel ≠ prevProps.versionLabel)
  let jobChanged : Bool :=
    decide (p.job ≠ prevProps.job) || decide (p.jobId ≠ prevProps.jobId)
  { ranFetchVersionIfMissing := versionChanged
    ranFetchJobIfMissing := jobChanged
    effects :=
      (if versionChanged then fetchVersionIfMissing ext p else []) ++
        (if jobChanged then fetchJobIfMissing p else []) }

/-- Constructor state: `{ modalOpen: false, canceling: false }`. -/
def initialState : State := { modalOpen := false, canceling := false }

/-- The `toggleModal` handler. -/
def toggleModal (s : State) (isOpen : Bool) : State := { s with modalOpen := isOpen }

/-- The `openModal` handler. -/
def openModal (s : State) : State := toggleModal s true

/-- Outcome of the asynchronous cancel request promise. -/
inductive Completion where
  | resolved
  | rejected
  deriving DecidableEq

/-- The `requestCancelJob` click handler: if no job is loaded it returns
without dispatching; otherwise it dispatches the cancel effect and registers
a continuation that sets `canceling := true` when the promise resolves.  A
rejected promise runs no callback (there is no catch handler). -/
def requestCancelJob (p : Props) (s : State) : List Effect × (Completion → State) :=
  match p.job with
  | Maybe.val job =>
    ([Effect.requestCancelJob job.id],
      fun c =>
        match c with
        | Completion.resolved => { s with canceling := true }
        | Completion.rejected => s)
  | _ => ([], fun _ => s)

/-- The state-changing events of the component after construction: the modal
handlers and the settling of a previously dispatched cancel request. -/
inductive Action where
  | toggleModal (isOpen : Bool)
  | openModal
  | cancelCompletion (p : Props) (c : Completion)

/-- State transition for one action. -/
def applyAction (s : State) : Action → State
  | Action.toggleModal b => toggleModal s b
  | Action.openModal => openModal s
  | Action.cancelCompletion p c => (requestCancelJob p s).2 c

/-- The cancel control: either the disabled busy indicator (a `Button` with a
`LabelWithSpinner` label and the `disabled` attribute) or the enabled button
whose click handler is `requestCancelJob`. -/
inductive CancelBtn where
  | busy (label : String) (disabled : Bool)
  | active (label : String)
  deriving DecidableEq

/-- The `getCancelBtn` render helper. -/
def getCancelBtn (p : Props) (s : State) : Option CancelBtn :=
  match p.job with
  | Maybe.val job =>
    if job.status = JobStatus.STARTED ∧ job.user_can_edit = true then
      if s.canceling = true then
        some (CancelBtn.busy "Canceling Installation..." true)
      else some (CancelBtn.active "Cancel Installation")
    else none
  | _ => none

/-- The observable pieces of the full loaded layout. -/
structure Layout where
  documentTitle : String
  cancelBtn : Option CancelBtn
  shareModalOpen : Bool
  shareModalJob : Job
  linkToPlan : String
  ctaCanceling : Bool
  stepsTable : Option (Plan × Job)
  deriving DecidableEq

/-- Result of `render`: the placeholder returned verbatim by
`getLoadingOrNotFound`, the defensive `ProductNotFound` view, or the full
loaded layout. -/
inductive RenderNode where
  | notReady (node : String)
  | productNotFound
  | loaded (layout : Layout)
  deriving DecidableEq

/-- The part of `render` after the early return: the defensive null check and
the full layout. -/
def renderReady (ext : Deps) (p : Props) (s : State) : RenderNode :=
  match p.product, p.version, p.plan, p.job with
  | some product, some version, some plan, Maybe.val job =>
    RenderNode.loaded
      { documentTitle :=
          "Installation | " ++ plan.title ++ " | " ++ product.title ++ " | MetaDeploy"
        cancelBtn := getCancelBtn p s
        shareModalOpen := s.modalOpen
        shareModalJob := job
        linkToPlan := ext.plan_detail product.slug version.label plan.slug
        ctaCanceling := s.canceling
        stepsTable :=
          match plan.steps with
          | some steps => if steps.length ≠ 0 then some (plan, job) else none
          | none => none }
  | _, _, _, _ => RenderNode.productNotFound

/-- The `render` method: return `getLoadingOrNotFound`'s node when it is not
`false`, otherwise the ready branch. -/
def render (ext : Deps) (p : Props) (s : State) : RenderNode :=
  match ext.getLoadingOrNotFound
      ⟨p.product, p.version, p.versionLabel, p.plan, p.job, p.jobId, p.user.isSome⟩ with
  | some node => RenderNode.notReady node
  | none => renderReady ext p s

/-! Concrete fixtures used by witnesses. -/

/-- A concrete in-progress job. -/
def job0 : Job := { id := "job-1", status := JobStatus.STARTED, user_can_edit := true }

/-- A concrete step. -/
def step0 : Step := { id := "step-1" }

/-- A concrete plan with one step. -/
def plan0 : Plan := { id := "plan-1", title := "My Plan", slug := "my-plan", steps := some [step0] }

/-- A concrete product. -/
def product0 : Product := { id := "prod-1", slug := "my-product", title := "My Product" }

/-- A concrete version. -/
def version0 : Version := { id := "ver-1", label := "1.0" }

/-- Concrete collaborators: the version predicate always requests a fetch, the
loading predicate always reports ready. -/
def depsReady : Deps :=
  { shouldFetchVersion := fun _ => true
    getLoadingOrNotFound := fun _ => none
    plan_detail := fun productSlug versionLabel planSlug =>
      "/products/" ++ productSlug ++ "/" ++ versionLabel ++ "/" ++ planSlug ++ "/jobs" }

/-- A fully populated prop tuple. -/
def propsFull : Props :=
  { user := some { username := "u" }
    product := some product0
    version := some version0
    versionLabel := some "1.0"
    plan := some plan0
    job := Maybe.val job0
    jobId := some "job-1" }

/-- The full prop tuple with a null product. -/
def propsNoProduct : Props := { propsFull with product := none }

/-- The full prop tuple with the job still unrequested. -/
def propsJobUndef : Props := { propsFull with job := Maybe.undef }

/-- The full prop tuple with the job requested but not found. -/
def propsJobNull : Props := { propsFull with job := Maybe.null }

/-- Helper: a loaded render result forces all four data props to be present. -/
theorem renderReady_loaded_shape (ext : Deps) (p : Props) (s : State) (l : Layout)
    (hl : renderReady ext p s = RenderNode.loaded l) :
    p.product.isSome = true ∧ p.version.isSome = true ∧ p.plan.isSome = true ∧
      ∃ j, p.job = Maybe.val j := by
  cases hp : p.product <;> cases hv : p.version <;> cases hpl : p.plan <;> cases hj : p.job <;>
    unfold renderReady at hl <;> rw [hp, hv, hpl, hj] at hl <;> simp_all

/-- C1: for every prop tuple, `render` produces the full loaded layout only
when product, version, plan and job are all non-null; in particular, whenever
product is null, `render` returns the placeholder supplied by
`getLoadingOrNotFound` or the not-found view, never the full layout. -/
theorem render_loaded_requires_all (ext : Deps) (p : Props) (s : State) :
    (∀ l, render ext p s = RenderNode.loaded l →
      p.product.isSome = true ∧ p.version.isSome = true ∧ p.plan.isSome = true ∧
        ∃ j, p.job = Maybe.val j) ∧
    (p.product = none →
      (∃ node, render ext p s = RenderNode.notReady node) ∨
        render ext p s = RenderNode.productNotFound) := by
  constructor
  · intro l hl
    unfold render at hl
    cases hg : ext.getLoadingOrNotFound
        ⟨p.product, p.version, p.versionLabel, p.plan, p.job, p.jobId, p.user.isSome⟩ <;>
      rw [hg] at hl
    · exact renderReady_loaded_shape ext p s l hl
    · simp at hl
  · intro hnone
    cases hr : render ext p s with
    | notReady node => exact Or.inl ⟨node, rfl⟩
    | productNotFound => exact Or.inr rfl
    | loaded l =>
      have h : render ext p s = RenderNode.loaded l := hr
      unfold render at h
      cases hg : ext.getLoadingOrNotFound
          ⟨p.product, p.version, p.versionLabel, p.plan, p.job, p.jobId, p.user.isSome⟩ <;>
        rw [hg] at h
      · have := (renderReady_loaded_shape ext p s l h).1
        rw [hnone] at this
        simp at this
      · simp at h

/-- Witness for C1 at a concrete input: with the product null and every other
prop populated, `render` does not produce the loaded layout. -/
theorem render_loaded_requires_all_witness :
    (∃ node, render depsReady propsNoProduct initialState = RenderNode.notReady node) ∨
      render depsReady propsNoProduct initialState = RenderNode.productNotFound :=
  (render_loaded_requires_all depsReady propsNoProduct initialState).2 rfl

/-- C2: `fetchVersionIfMissing` dispatches exactly one fetch-version effect
with (product id, versionLabel) when product and versionLabel are present
(truthy, so a non-empty label) and `shouldFetchVersion` holds on
(product, version, versionLabel); otherwise it dispatches nothing. -/
theorem fetchVersionIfMissing_spec (ext : Deps) (p : Props) :
    (∀ product label, p.product = some product → p.versionLabel = some label → label ≠ "" →
      (ext.shouldFetchVersion ⟨product, p.version, label⟩ = true →
        fetchVersionIfMissing ext p = [Effect.fetchVersion product.id label]) ∧
      (ext.shouldFetchVersion ⟨product, p.version, label⟩ = false →
        fetchVersionIfMissing ext p = [])) ∧
    ((p.product = none ∨ p.versionLabel = none ∨ p.versionLabel = some "") →
      fetchVersionIfMissing ext p = []) := by
  constructor
  · intro product label hp hl hne
    constructor
    · intro hsf
      simp [fetchVersionIfMissing, hp, hl, hne, hsf]
    · intro hsf
      simp [fetchVersionIfMissing, hp, hl, hsf]
  · rintro (h | h | h)
    · simp [fetchVersionIfMissing, h]
    · cases hp : p.product <;> simp [fetchVersionIfMissing, hp, h]
    · cases hp : p.product <;> simp [fetchVersionIfMissing, hp, h]


/-- Witness for C2 at a concrete input: with a product, a non-empty label and
a predicate that requests the fetch, exactly one fetch-version effect with
(product id, label) is dispatched. -/
theorem fetchVersionIfMissing_spec_witness :
    fetchVersionIfMissing depsReady propsFull = [Effect.fetchVersion "prod-1" "1.0"] :=
  ((fetchVersionIfMissing_spec depsReady propsFull).1 product0 "1.0" rfl rfl
    (by decide)).1 rfl

/-- C3: `fetchJobIfMissing` dispatches a fetch-job effect with the jobId if
and only if the job prop is exactly the `undefined` "not yet requested"
sentinel and jobId is present (truthy); for any other job value — including
the `null` "requested but not found" sentinel — and for an absent jobId,
nothing is dispatched. -/
theorem fetchJobIfMissing_spec (p : Props) :
    (∀ jid, p.job = Maybe.undef → p.jobId = some jid → jid ≠ "" →
      fetchJobIfMissing p = [Effect.fetchJob jid]) ∧
    (p.job ≠ Maybe.undef → fetchJobIfMissing p = []) ∧
    ((p.jobId = none ∨ p.jobId = some "") → fetchJobIfMissing p = []) := by
  refine ⟨?_, ?_, ?_⟩
  · intro jid hj hid hne
    simp [fetchJobIfMissing, hj, hid, hne]
  · intro hj
    cases hju : p.job <;> simp_all [fetchJobIfMissing]
  · intro hid
    cases hju : p.job <;> rcases hid with h | h <;> simp [fetchJobIfMissing, hju, h]

/-- Witness for C3 at a concrete input: with the job prop `undefined` and a
jobId present, exactly one fetch-job effect is dispatched. -/
theorem fetchJobIfMissing_spec_witness :
    fetchJobIfMissing propsJobUndef = [Effect.fetchJob "job-1"] :=
  (fetchJobIfMissing_spec propsJobUndef).1 "job-1" rfl rfl (by decide)

/-- C4: on mount both ensure-operations run exactly once; on update the
ensure-version operation re-runs if and only if product, version or
versionLabel changed, and the ensure-job operation re-runs if and only if job
or jobId changed; an update where neither group changed dispatches nothing. -/
theorem lifecycle_fetch_policy (ext : Deps) (prev p : Props) :
    ((componentDidMount ext p).ranFetchVersionIfMissing = true ∧
      (componentDidMount ext p).ranFetchJobIfMissing = true ∧
      (componentDidMount ext p).effects =
        fetchVersionIfMissing ext p ++ fetchJobIfMissing p) ∧
    ((componentDidUpdate ext prev p).ranFetchVersionIfMissing = true ↔
      (p.product ≠ prev.product ∨ p.version ≠ prev.version ∨
        p.versionLabel ≠ prev.versionLabel)) ∧
    ((componentDidUpdate ext prev p).ranFetchJobIfMissing = true ↔
      (p.job ≠ prev.job ∨ p.jobId ≠ prev.jobId)) ∧
    (p.product = prev.product → p.version = prev.version →
      p.versionLabel = prev.versionLabel → p.job = prev.job → p.jobId = prev.jobId →
      (componentDidUpdate ext prev p).effects = []) := by
  refine ⟨⟨rfl, rfl, rfl⟩, ?_, ?_, ?_⟩
  · simp [componentDidUpdate, or_assoc]
  · simp [componentDidUpdate]
  · intro h1 h2 h3 h4 h5
    simp [componentDidUpdate, h1, h2, h3, h4, h5]

/-- Witness for C4 at a concrete input: an update that changes only the
product re-runs the ensure-version operation. -/
theorem lifecycle_fetch_policy_witness :
    (componentDidUpdate depsReady propsFull propsNoProduct).ranFetchVersionIfMissing = true :=
  (lifecycle_fetch_policy depsReady propsFull propsNoProduct).2.1.mpr
    (Or.inl (by decide))

/-- C5: the cancel control is rendered if and only if the job prop holds a
job whose status is STARTED and whose `user_can_edit` flag is true; with an
`undefined` or `null` job, or any other status/permission combination, the
control is absent. -/
theorem getCancelBtn_visibility (p : Props) (s : State) :
    (∀ j, p.job = Maybe.val j →
      ((getCancelBtn p s).isSome = true ↔
        (j.status = JobStatus.STARTED ∧ j.user_can_edit = true))) ∧
    ((p.job = Maybe.undef ∨ p.job = Maybe.null) → getCancelBtn p s = none) := by
  constructor
  · intro j hj
    by_cases hcond : j.status = JobStatus.STARTED ∧ j.user_can_edit = true
    · cases hc : s.canceling <;> simp [getCancelBtn, hj, hcond, hc]
    · simp [getCancelBtn, hj, hcond]
  · rintro (h | h) <;> simp [getCancelBtn, h]

/-- Witness for C5 at a concrete input: a STARTED, editable job makes the
cancel control present. -/
theorem getCancelBtn_visibility_witness :
    (getCancelBtn propsFull initialState).isSome = true :=
  ((getCancelBtn_visibility propsFull initialState).1 job0 rfl).mpr ⟨rfl, rfl⟩

/-- C6: `canceling` starts false, is set true only by the resolved completion
of a dispatched cancel request, is never reset by any component action, and
while it is true an otherwise visible cancel control renders as the disabled
busy indicator labeled "Canceling Installation...". -/
theorem canceling_terminal :
    initialState.canceling = false ∧
    (∀ s a, (applyAction s a).canceling = true →
      s.canceling = true ∨
        ∃ p j, a = Action.cancelCompletion p Completion.resolved ∧ p.job = Maybe.val j) ∧
    (∀ s a, s.canceling = true → (applyAction s a).canceling = true) ∧
    (∀ p s j, p.job = Maybe.val j →
      (requestCancelJob p s).2 Completion.resolved = { s with canceling := true }) ∧
    (∀ p s j, s.canceling = true → p.job = Maybe.val j → j.status = JobStatus.STARTED →
      j.user_can_edit = true →
      getCancelBtn p s = some (CancelBtn.busy "Canceling Installation..." true)) := by
  refine ⟨rfl, ?_, ?_, ?_, ?_⟩
  · intro s a h
    cases a with
    | toggleModal b => exact Or.inl h
    | openModal => exact Or.inl h
    | cancelCompletion p c =>
      cases hj : p.job with
      | undef =>
        simp only [applyAction, requestCancelJob, hj] at h
        exact Or.inl h
      | null =>
        simp only [applyAction, requestCancelJob, hj] at h
        exact Or.inl h
      | val j =>
        cases c with
        | resolved => exact Or.inr ⟨p, j, rfl, hj⟩
        | rejected =>
          simp only [applyAction, requestCancelJob, hj] at h
          exact Or.inl h
  · intro s a h
    cases a with
    | toggleModal b => exact h
    | openModal => exact h
    | cancelCompletion p c =>
      cases hj : p.job with
      | undef => simpa [applyAction, requestCancelJob, hj] using h
      | null => simpa [applyAction, requestCancelJob, hj] using h
      | val j => cases c <;> simp [applyAction, requestCancelJob, hj, h]
  · intro p s j hj
    simp [requestCancelJob, hj]
  · intro p s j hc hj hst he
    simp [getCancelBtn, hj, hst, he, hc]

/-- Witness for C6 at a concrete input: resolving the cancel request made with
a loaded job sets `canceling` from the initial state. -/
theorem canceling_terminal_witness :
    (requestCancelJob propsFull initialState).2 Completion.resolved =
      { initialState with canceling := true } :=
  canceling_terminal.2.2.2.1 propsFull initialState job0 rfl

/-- C7: with a loaded job whose status is STARTED and which the viewer may
edit, and `canceling` false, the cancel control is the enabled button, and a
single click (its `requestCancelJob` handler) dispatches exactly one
request-cancel-job effect carrying the job id. -/
theorem cancel_click (p : Props) (s : State) (j : Job)
    (hj : p.job = Maybe.val j) (hst : j.status = JobStatus.STARTED)
    (he : j.user_can_edit = true) (hc : s.canceling = false) :
    getCancelBtn p s = some (CancelBtn.active "Cancel Installation") ∧
    (requestCancelJob p s).1 = [Effect.requestCancelJob j.id] := by
  constructor
  · simp [getCancelBtn, hj, hst, he, hc]
  · simp [requestCancelJob, hj]

/-- Witness for C7 at a concrete input. -/
theorem cancel_click_witness :
    getCancelBtn propsFull initialState = some (CancelBtn.active "Cancel Installation") ∧
    (requestCancelJob propsFull initialState).1 = [Effect.requestCancelJob "job-1"] :=
  cancel_click propsFull initialState job0 rfl rfl rfl rfl

/-- C8: in the full loaded layout, the steps table is rendered, receiving
(plan, job), if and only if `plan.steps` is present and non-empty; with null
or empty steps the layout holds no steps table. -/
theorem stepsTable_in_loaded_layout (ext : Deps) (p : Props) (s : State)
    (product : Product) (version : Version) (plan : Plan) (j : Job)
    (hp : p.product = some product) (hv : p.version = some version)
    (hpl : p.plan = some plan) (hj : p.job = Maybe.val j)
    (hready : ext.getLoadingOrNotFound
      ⟨p.product, p.version, p.versionLabel, p.plan, p.job, p.jobId, p.user.isSome⟩ = none) :
    ∃ l, render ext p s = RenderNode.loaded l ∧
      (l.stepsTable = some (plan, j) ↔ ∃ steps, plan.steps = some steps ∧ steps ≠ []) ∧
      ((plan.steps = none ∨ plan.steps = some []) → l.stepsTable = none) := by
  have hr : render ext p s = RenderNode.loaded
      { documentTitle :=
          "Installation | " ++ plan.title ++ " | " ++ product.title ++ " | MetaDeploy"
        cancelBtn := getCancelBtn p s
        shareModalOpen := s.modalOpen
        shareModalJob := j
        linkToPlan := ext.plan_detail product.slug version.label plan.slug
        ctaCanceling := s.canceling
        stepsTable :=
          match plan.steps with
          | some steps => if steps.length ≠ 0 then some (plan, j) else none
          | none => none } := by
    rw [hp, hv, hpl, hj] at hready
    simp [render, renderReady, hready, hp, hv, hpl, hj]
  refine ⟨_, hr, ?_, ?_⟩
  · cases hst : plan.steps with
    | none => simp [hst]
    | some steps =>
      cases steps with
      | nil => simp [hst]
      | cons a t => simp [hst]
  · rintro (h | h) <;> simp [h]

/-- Witness for C8 at a concrete input: with a one-step plan and every prop
present, the loaded layout carries the steps table with (plan, job). -/
theorem stepsTable_in_loaded_layout_witness :
    ∃ l, render depsReady propsFull initialState = RenderNode.loaded l ∧
      l.stepsTable = some (plan0, job0) := by
  obtain ⟨l, hl, hiff, _⟩ :=
    stepsTable_in_loaded_layout depsReady propsFull initialState
      product0 version0 plan0 job0 rfl rfl rfl rfl rfl
  exact ⟨l, hl, hiff.mpr ⟨[step0], rfl, by simp⟩⟩

/-- C9: when the cancel request promise rejects, the continuation leaves the
local state unchanged, so `canceling` keeps its prior value and the cancel
control renders exactly as before the attempt. -/
theorem cancel_rejected_no_change (p : Props) (s : State) :
    (requestCancelJob p s).2 Completion.rejected = s ∧
    getCancelBtn p ((requestCancelJob p s).2 Completion.rejected) = getCancelBtn p s := by
  have h : (requestCancelJob p s).2 Completion.rejected = s := by
    cases hj : p.job <;> simp [requestCancelJob, hj]
  exact ⟨h, by rw [h]⟩

/-- C10: invoking the cancel handler with an `undefined` or `null` job is a
total no-op: no effect is dispatched, and the continuation leaves both local
state fields unchanged for either completion outcome. -/
theorem requestCancelJob_noop_without_job (p : Props) (s : State)
    (h : p.job = Maybe.undef ∨ p.job = Maybe.null) :
    (requestCancelJob p s).1 = [] ∧ ∀ c, (requestCancelJob p s).2 c = s := by
  rcases h with h | h <;> exact ⟨by simp [requestCancelJob, h], fun c => by
    simp [requestCancelJob, h]⟩

/-- Witness for C10 at a concrete input: with the job requested but not
found, the handler dispatches nothing. -/
theorem requestCancelJob_noop_without_job_witness :
    (requestCancelJob propsJobNull initialState).1 = [] :=
  (requestCancelJob_noop_without_job propsJobNull initialState (Or.inr rfl)).1

end MetaDeploy
